import Mathlib

/-!
Verification of the authentication session lifecycle of the BEFW_Final
backend (src/controllers/user.controller.ts and
src/middlewares/authenticate.middleware.ts).

A shallow embedding: JWTs are modelled as records carrying the signed
payload (`username`), the signing secret and the expiry instant; the Redis
set "refreshTokens" is a list with set semantics; every HTTP handler is a
function from the mutable server state (Mongo user collection + Redis set)
and the request data to a response and a new state.  Fallibility of a Redis
round trip is made explicit by a `storeOk : Bool` argument: `true` models a
reply, `false` models an error-first callback receiving an error (the `err`
parameter of `sismember`/`srem`, or a failed fire-and-forget `sadd`).
Time is a natural-number instant passed explicitly.
-/

namespace BEFW

/-- A signed JSON Web Token as produced by `jwt.sign({username}, secret,
{expiresIn})`: the payload identity, the secret it was signed with and its
expiry instant.  Two signings with identical payload, secret and times
yield identical token strings, so the record is used directly as the token
value. -/
structure Jwt where
  username : String
  secret : String
  exp : Nat
deriving DecidableEq, Repr

/-- Signing, `jwt.sign({username}, secret, {expiresIn})`, at instant `now`. -/
def jwtSign (username secret : String) (now expiresIn : Nat) : Jwt :=
  { username := username, secret := secret, exp := now + expiresIn }

/-- Verification, `jwt.verify(token, secret)`, at instant `now`: succeeds with the decoded
payload iff the signature matches `secret` and the token is unexpired
(jsonwebtoken rejects once `now >= exp`). -/
def jwtVerify (t : Jwt) (secret : String) (now : Nat) : Option String :=
  if t.secret = secret ∧ now < t.exp then some t.username else none

/-- The environment configuration: the two JWT secrets and the two expiry
policies (`JWT_ACCESS_TOKEN_SECRET`, `JWT_REFRESH_TOKEN_SECRET`,
`JWT_ACCESS_TOKEN_EXPIRATION`, `JWT_REFRESH_TOKEN_EXPIRATION`). -/
structure Config where
  accessSecret : String
  refreshSecret : String
  accessExpiration : Nat
  refreshExpiration : Nat
deriving DecidableEq, Repr

/-- A stored user record: username and bcrypt password hash. -/
structure UserRec where
  username : String
  password : String
deriving DecidableEq, Repr

/-- The mutable server state: the Mongo `users` collection and the Redis
set "refreshTokens" (the ActiveRefreshSet), as a list with set
semantics. -/
structure ServerState where
  users : List UserRec
  refreshTokens : List Jwt
deriving DecidableEq, Repr

/-- An HTTP response as observable through Express: status, JSON message,
cookies set by `res.cookie` and cookies cleared by `res.clearCookie`. -/
structure HttpResponse where
  status : Nat
  message : String
  accessCookie : Option Jwt
  refreshCookie : Option Jwt
  clearAccessCookie : Bool
  clearRefreshCookie : Bool
deriving DecidableEq, Repr

/-- A bare `res.status(s).json({message})` response: no cookie set or
cleared. -/
def jsonResp (status : Nat) (message : String) : HttpResponse :=
  { status := status, message := message, accessCookie := none,
    refreshCookie := none, clearAccessCookie := false,
    clearRefreshCookie := false }

/-- Redis `SADD` on the modelled set. -/
def sadd (t : Jwt) (s : List Jwt) : List Jwt :=
  if t ∈ s then s else t :: s

/-- Redis `SREM` on the modelled set. -/
def srem (t : Jwt) (s : List Jwt) : List Jwt :=
  s.filter (fun x => x ≠ t)

/-- Redis `SISMEMBER` on the modelled set (`reply = 1` iff member). -/
def sismember (t : Jwt) (s : List Jwt) : Bool :=
  decide (t ∈ s)

/-- Mongoose `User.findOne({username})`. -/
def findOne (users : List UserRec) (username : String) : Option UserRec :=
  users.find? (fun u => u.username = username)

/-- The `generateAccessToken(username)` helper: signs `{username}` with the access
secret and access expiry.  Pure, no store side effect. -/
def generateAccessToken (cfg : Config) (now : Nat) (username : String) : Jwt :=
  jwtSign username cfg.accessSecret now cfg.accessExpiration

/-- The `generateRefreshToken(username)` helper: signs `{username}` with the refresh
secret and refresh expiry, then fires `redisClient.sadd("refreshTokens",
refreshToken)` without awaiting or checking the result; the token is
returned regardless.  `storeOk = false` models the fire-and-forget add
failing, in which case the set is unchanged. -/
def generateRefreshToken (cfg : Config) (now : Nat) (storeOk : Bool)
    (username : String) (st : ServerState) : Jwt × ServerState :=
  let refreshTok := jwtSign username cfg.refreshSecret now cfg.refreshExpiration
  (refreshTok,
   if storeOk then { st with refreshTokens := sadd refreshTok st.refreshTokens }
   else st)

/-- The `login` handler: looks the username up in the user collection,
compares the presented password against the stored bcrypt hash (the
external `bcrypt.compare` is the parameter `bcryptCompare`), and on success
issues both tokens and sets both cookies; any failure (user absent or
password mismatch) lands in the single 401 "Invalid credentials" branch. -/
def login (cfg : Config) (bcryptCompare : String → String → Bool) (now : Nat)
    (storeOk : Bool) (username password : String) (st : ServerState) :
    HttpResponse × ServerState :=
  match findOne st.users username with
  | some user =>
    if bcryptCompare password user.password then
      let accessToken := generateAccessToken cfg now username
      let minted := generateRefreshToken cfg now storeOk username st
      ({ status := 200, message := "Logged in successfully",
         accessCookie := some accessToken, refreshCookie := some minted.1,
         clearAccessCookie := false, clearRefreshCookie := false }, minted.2)
    else (jsonResp 401 "Invalid credentials", st)
  | none => (jsonResp 401 "Invalid credentials", st)

/-- The `refreshToken` handler: 401 when the `refreshToken` cookie is
absent; then `sismember` against the Redis set, where a store error or a
reply other than 1 both land in the 403 "Invalid refresh token" branch;
then `jwt.verify` against the refresh secret, failing 403 "Token is
invalid or expired"; on success a new access token is minted from the
decoded username and set as the `accessToken` cookie.  The Redis set is
never written. -/
def refreshTokenHandler (cfg : Config) (now : Nat) (storeOk : Bool)
    (cookie : Option Jwt) (st : ServerState) : HttpResponse × ServerState :=
  match cookie with
  | none => (jsonResp 401 "Token is required", st)
  | some token =>
    if storeOk && sismember token st.refreshTokens then
      match jwtVerify token cfg.refreshSecret now with
      | some username =>
        ({ status := 200, message := "Access token refreshed",
           accessCookie := some (generateAccessToken cfg now username),
           refreshCookie := none, clearAccessCookie := false,
           clearRefreshCookie := false }, st)
      | none => (jsonResp 403 "Token is invalid or expired", st)
    else (jsonResp 403 "Invalid refresh token", st)

/-- The `logout` handler: `srem` of the presented cookie from the Redis
set; a store error yields 500 "Error logging out" with the state
unchanged; otherwise both cookies are cleared and 200 is returned, whether
or not the token was present in the set. -/
def logoutHandler (storeOk : Bool) (cookie : Option Jwt) (st : ServerState) :
    HttpResponse × ServerState :=
  if storeOk then
    ({ status := 200, message := "Logged out successfully",
       accessCookie := none, refreshCookie := none,
       clearAccessCookie := true, clearRefreshCookie := true },
     { st with refreshTokens :=
         match cookie with
         | some t => srem t st.refreshTokens
         | none => st.refreshTokens })
  else (jsonResp 500 "Error logging out", st)

/-- Outcome of the `authenticateJWT` middleware: either `next()` is called
with the decoded payload attached as `req.user`, or a response rejects the
request. -/
inductive AuthOutcome where
  | proceed (user : String)
  | reject (resp : HttpResponse)
deriving DecidableEq, Repr

/-- The `authenticateJWT` middleware: reads the `accessToken` cookie; 401
"Unauthorized" when absent; otherwise `jwt.verify` against the access
secret, 403 "Forbidden" on failure, and on success the decoded payload is
attached to the request and the chain proceeds.  The middleware takes the
server state but its body never consults it: no Redis or Mongo lookup. -/
def authenticateJWT (cfg : Config) (now : Nat) (cookie : Option Jwt)
    (_st : ServerState) : AuthOutcome :=
  match cookie with
  | some token =>
    match jwtVerify token cfg.accessSecret now with
    | some user => .proceed user
    | none => .reject (jsonResp 403 "Forbidden")
  | none => .reject (jsonResp 401 "Unauthorized")

/-! Concrete fixtures used by witnesses and counterexamples. -/

/-- A concrete configuration with distinct secrets and the source's expiry
policies (15 min access, 30 days refresh, in seconds). -/
def cfgW : Config :=
  { accessSecret := "as", refreshSecret := "rs",
    accessExpiration := 900, refreshExpiration := 2592000 }

/-- A concrete refresh token for "alice", signed at instant 0. -/
def tokW : Jwt := jwtSign "alice" "rs" 0 2592000

/-- A concrete refresh token that is never placed in the active set. -/
def badTokW : Jwt := jwtSign "mallory" "rs" 0 2592000

/-- A concrete stored user. -/
def userW : UserRec := { username := "alice", password := "hash" }

/-- A concrete server state: one user, one active refresh token. -/
def stW : ServerState := { users := [userW], refreshTokens := [tokW] }

/-- A concrete stand-in for `bcrypt.compare`: the presented password
verifies against the stored hash iff they are equal. -/
def bcW : String → String → Bool := fun p h => p == h

/-! Helper lemmas about the Redis set operations. -/

theorem mem_sadd (t : Jwt) (s : List Jwt) : t ∈ sadd t s := by
  unfold sadd
  split
  · assumption
  · exact List.mem_cons_self t s

theorem srem_idem (t : Jwt) (s : List Jwt) : srem t (srem t s) = srem t s := by
  simp [srem, List.filter_filter]

theorem srem_of_not_mem (t : Jwt) (s : List Jwt) (h : t ∉ s) : srem t s = s := by
  unfold srem
  rw [List.filter_eq_self]
  intro a ha
  have hne : a ≠ t := fun hEq => h (hEq ▸ ha)
  simp [hne]

/-- C1: with the Revocation Store reachable, `refresh(t)` succeeds (status
200) iff a token was presented, it is a member of the active set, and it
verifies under the refresh secret; a missing token yields the 401
TokenMissing response, a non-member token yields the 403 TokenRevoked
response regardless of its cryptographic validity (membership is checked
first), a member token failing verification yields the 403 TokenInvalid
response, and success sets exactly the freshly minted access token. -/
theorem refresh_success_iff (cfg : Config) (now : Nat) (cookie : Option Jwt)
    (st : ServerState) :
    ((refreshTokenHandler cfg now true cookie st).1.status = 200 ↔
      ∃ t, cookie = some t ∧ t ∈ st.refreshTokens ∧
        (jwtVerify t cfg.refreshSecret now).isSome = true) ∧
    (cookie = none →
      (refreshTokenHandler cfg now true cookie st).1 =
        jsonResp 401 "Token is required") ∧
    (∀ t, cookie = some t → t ∉ st.refreshTokens →
      (refreshTokenHandler cfg now true cookie st).1 =
        jsonResp 403 "Invalid refresh token") ∧
    (∀ t, cookie = some t → t ∈ st.refreshTokens →
      jwtVerify t cfg.refreshSecret now = none →
      (refreshTokenHandler cfg now true cookie st).1 =
        jsonResp 403 "Token is invalid or expired") ∧
    (∀ t u, cookie = some t → t ∈ st.refreshTokens →
      jwtVerify t cfg.refreshSecret now = some u →
      (refreshTokenHandler cfg now true cookie st).1 =
        { status := 200, message := "Access token refreshed",
          accessCookie := some (generateAccessToken cfg now u),
          refreshCookie := none, clearAccessCookie := false,
          clearRefreshCookie := false }) := by
  cases cookie with
  | none => simp [refreshTokenHandler, jsonResp]
  | some t =>
    by_cases hm : t ∈ st.refreshTokens
    · cases hv : jwtVerify t cfg.refreshSecret now with
      | none =>
        simp [refreshTokenHandler, sismember, hm, hv, jsonResp]
        intro t' u ht hmem hv'
        rw [← ht, hv] at hv'
        cases hv'
      | some u =>
        simp [refreshTokenHandler, sismember, hm, hv, jsonResp]
        intro t' u' ht hmem hv'
        rw [← ht, hv] at hv'
        injection hv' with hu
        rw [hu]
    · simp [refreshTokenHandler, sismember, hm, jsonResp]
      intro t' u ht hmem
      exact absurd (ht ▸ hmem) hm

theorem refresh_success_iff_witness :
    (refreshTokenHandler cfgW 0 true (some tokW) stW).1.status = 200 :=
  (refresh_success_iff cfgW 0 (some tokW) stW).1.mpr
    ⟨tokW, rfl, by simp [stW], by decide⟩

/-- C3: no refresh call — successful or not, store reachable or not — ever
changes the server state: the ActiveRefreshSet is returned untouched (so
the presented token remains a member and nothing is added or removed), the
response never sets or clears a `refreshToken` cookie (no rotation), and
an `accessToken` cookie is set exactly on the 200 success path. -/
theorem refresh_frame (cfg : Config) (now : Nat) (storeOk : Bool)
    (cookie : Option Jwt) (st : ServerState) :
    (refreshTokenHandler cfg now storeOk cookie st).2 = st ∧
    (refreshTokenHandler cfg now storeOk cookie st).1.refreshCookie = none ∧
    (refreshTokenHandler cfg now storeOk cookie st).1.clearRefreshCookie = false ∧
    (refreshTokenHandler cfg now storeOk cookie st).1.clearAccessCookie = false ∧
    (refreshTokenHandler cfg now storeOk cookie st).1.accessCookie.isSome =
      ((refreshTokenHandler cfg now storeOk cookie st).1.status == 200) := by
  cases cookie with
  | none => simp [refreshTokenHandler, jsonResp]
  | some t =>
    by_cases hm : storeOk && sismember t st.refreshTokens
    · cases hv : jwtVerify t cfg.refreshSecret now with
      | none => simp [refreshTokenHandler, hm, hv, jsonResp]
      | some u => simp [refreshTokenHandler, hm, hv, jsonResp]
    · simp [refreshTokenHandler, hm, jsonResp]

/-- C5: with the store reachable, `logout` is idempotent — running it a
second time from the state the first call produced yields the identical
response and the identical state — every call answers 200 with both
cookies cleared, and removing a token that is absent from the
ActiveRefreshSet is not an error and leaves the state unchanged. -/
theorem logout_idempotent (cookie : Option Jwt) (st : ServerState) :
    logoutHandler true cookie (logoutHandler true cookie st).2 =
      logoutHandler true cookie st ∧
    (logoutHandler true cookie st).1.status = 200 ∧
    (logoutHandler true cookie st).1.clearAccessCookie = true ∧
    (logoutHandler true cookie st).1.clearRefreshCookie = true ∧
    (∀ t, cookie = some t → t ∉ st.refreshTokens →
      (logoutHandler true cookie st).2 = st) := by
  cases cookie with
  | none => simp [logoutHandler]
  | some t =>
    refine ⟨?_, by simp [logoutHandler], by simp [logoutHandler],
      by simp [logoutHandler], ?_⟩
    · simp [logoutHandler, srem_idem]
    · intro t' ht hmem
      have ht' : t' = t := by injection ht with h; rw [h]
      simp [logoutHandler, srem_of_not_mem t st.refreshTokens (ht' ▸ hmem)]

theorem logout_idempotent_witness :
    (BEFW.tokW ∉ ({ users := [BEFW.userW], refreshTokens := [] } :
        BEFW.ServerState).refreshTokens) ∧
    (logoutHandler true (some BEFW.tokW)
        { users := [BEFW.userW], refreshTokens := [] }).2 =
      { users := [BEFW.userW], refreshTokens := [] } :=
  ⟨by simp, (logout_idempotent (some BEFW.tokW)
      { users := [BEFW.userW], refreshTokens := [] }).2.2.2.2 BEFW.tokW rfl
      (by simp)⟩

/-- C2 counterexample: with the store unavailable during refresh, the code
answers the very same 403 "Invalid refresh token" response that a revoked
(non-member) token receives — not a 5xx — so a store outage is
indistinguishable from revocation on the refresh path. -/
theorem refresh_store_error_counterexample :
    (refreshTokenHandler cfgW 0 false (some tokW) stW).1 =
      (refreshTokenHandler cfgW 0 true (some badTokW) stW).1 ∧
    (refreshTokenHandler cfgW 0 false (some tokW) stW).1.status = 403 := by
  constructor
  · decide
  · decide

/-- C2 amended: store unavailability during `logout` is reported as a 500
"Error logging out" with the state unchanged — distinct from the 403 token
errors — but store unavailability during `refresh` is collapsed into the
same 403 "Invalid refresh token" response as a revoked token, so on the
refresh path a caller cannot distinguish a revoked session from an
unreachable store. -/
theorem store_unavailable_split (cfg : Config) (now : Nat)
    (cookie : Option Jwt) (st : ServerState) (t : Jwt) :
    (logoutHandler false cookie st).1 = jsonResp 500 "Error logging out" ∧
    (logoutHandler false cookie st).2 = st ∧
    (refreshTokenHandler cfg now false (some t) st).1 =
      jsonResp 403 "Invalid refresh token" ∧
    (refreshTokenHandler cfg now false (some t) st).1 =
      (refreshTokenHandler cfg now true (some t)
        { st with refreshTokens := [] }).1 := by
  refine ⟨rfl, rfl, rfl, ?_⟩
  simp [refreshTokenHandler, sismember]

/-- C4: whenever login accepts a pair — the username is found in the user
collection and the presented password verifies against the stored hash —
and the store add goes through, the `refreshToken` cookie returned by the
call holds a token that is a member of the ActiveRefreshSet in the state
immediately after the call, and the call answered 200. -/
theorem login_puts_refresh_in_set (cfg : Config)
    (bc : String → String → Bool) (now : Nat) (username password : String)
    (st : ServerState) (user : UserRec)
    (hfind : findOne st.users username = some user)
    (hcmp : bc password user.password = true) :
    ∃ rt, (login cfg bc now true username password st).1.refreshCookie =
        some rt ∧
      rt ∈ (login cfg bc now true username password st).2.refreshTokens ∧
      (login cfg bc now true username password st).1.status = 200 := by
  refine ⟨jwtSign username cfg.refreshSecret now cfg.refreshExpiration,
    ?_, ?_, ?_⟩ <;>
    simp [login, hfind, hcmp, generateRefreshToken, mem_sadd]

theorem login_puts_refresh_in_set_witness :
    findOne stW.users "alice" = some userW ∧
    bcW "hash" userW.password = true ∧
    ∃ rt, (login cfgW bcW 0 true "alice" "hash" stW).1.refreshCookie =
        some rt ∧
      rt ∈ (login cfgW bcW 0 true "alice" "hash" stW).2.refreshTokens ∧
      (login cfgW bcW 0 true "alice" "hash" stW).1.status = 200 :=
  ⟨by decide, by decide,
    login_puts_refresh_in_set cfgW bcW 0 "alice" "hash" stW userW
      (by decide) (by decide)⟩

/-- C6: verifying `generateAccessToken(id)` under the access secret at any
instant before expiry yields exactly `id`, and — the two secrets being
distinct — the same token fails verification under the refresh secret. -/
theorem access_token_round_trip (cfg : Config) (now vtime : Nat)
    (id : String)
    (hexp : vtime < now + cfg.accessExpiration)
    (hsec : cfg.accessSecret ≠ cfg.refreshSecret) :
    jwtVerify (generateAccessToken cfg now id) cfg.accessSecret vtime =
      some id ∧
    jwtVerify (generateAccessToken cfg now id) cfg.refreshSecret vtime =
      none := by
  constructor
  · simp [jwtVerify, generateAccessToken, jwtSign, hexp]
  · simp [jwtVerify, generateAccessToken, jwtSign, hsec]

theorem access_token_round_trip_witness :
    (0 < 0 + cfgW.accessExpiration ∧ cfgW.accessSecret ≠ cfgW.refreshSecret) ∧
    jwtVerify (generateAccessToken cfgW 0 "alice") cfgW.accessSecret 0 =
      some "alice" ∧
    jwtVerify (generateAccessToken cfgW 0 "alice") cfgW.refreshSecret 0 =
      none :=
  ⟨⟨by decide, by decide⟩,
    access_token_round_trip cfgW 0 0 "alice" (by decide) (by decide)⟩

/-- C7: the two ways login can fail — username absent from the user
collection, or username present but password mismatch — produce literally
the same result: the same 401 "Invalid credentials" response with no
cookie set, and the same (unchanged) server state. -/
theorem login_failure_indistinguishable (cfg : Config)
    (bc : String → String → Bool) (now : Nat) (storeOk : Bool)
    (st : ServerState) (u1 p1 u2 p2 : String) (user : UserRec)
    (h1 : findOne st.users u1 = none)
    (h2 : findOne st.users u2 = some user)
    (h3 : bc p2 user.password = false) :
    login cfg bc now storeOk u1 p1 st = login cfg bc now storeOk u2 p2 st ∧
    (login cfg bc now storeOk u1 p1 st).1 =
      jsonResp 401 "Invalid credentials" ∧
    (login cfg bc now storeOk u1 p1 st).2 = st := by
  refine ⟨?_, ?_, ?_⟩ <;> simp [login, h1, h2, h3]

theorem login_failure_indistinguishable_witness :
    (findOne stW.users "bob" = none ∧ findOne stW.users "alice" = some userW ∧
      bcW "wrong" userW.password = false) ∧
    login cfgW bcW 0 true "bob" "x" stW = login cfgW bcW 0 true "alice" "wrong" stW :=
  ⟨⟨by decide, by decide, by decide⟩,
    (login_failure_indistinguishable cfgW bcW 0 true stW "bob" "x" "alice"
      "wrong" userW (by decide) (by decide) (by decide)).1⟩

/-- C8: the middleware's outcome is the same for any two server states (it
performs no Revocation Store or user-collection lookup); a missing
`accessToken` cookie is rejected 401 "Unauthorized", a token failing
verification under the access secret is rejected 403 "Forbidden", and a
token verifying under the access secret lets the chain proceed with the
decoded identity attached to the request before the protected handler
runs. -/
theorem authenticateJWT_spec (cfg : Config) (now : Nat)
    (cookie : Option Jwt) (st1 st2 : ServerState) :
    authenticateJWT cfg now cookie st1 = authenticateJWT cfg now cookie st2 ∧
    (cookie = none →
      authenticateJWT cfg now cookie st1 =
        .reject (jsonResp 401 "Unauthorized")) ∧
    (∀ t, cookie = some t → jwtVerify t cfg.accessSecret now = none →
      authenticateJWT cfg now cookie st1 =
        .reject (jsonResp 403 "Forbidden")) ∧
    (∀ t u, cookie = some t → jwtVerify t cfg.accessSecret now = some u →
      authenticateJWT cfg now cookie st1 = .proceed u) := by
  refine ⟨rfl, ?_, ?_, ?_⟩
  · intro h
    rw [h]
    rfl
  · intro t ht hv
    rw [ht]
    simp [authenticateJWT, hv]
  · intro t u ht hv
    rw [ht]
    simp [authenticateJWT, hv]

theorem authenticateJWT_spec_witness :
    jwtVerify (generateAccessToken cfgW 0 "alice") cfgW.accessSecret 0 =
      some "alice" ∧
    authenticateJWT cfgW 0 (some (generateAccessToken cfgW 0 "alice")) stW =
      .proceed "alice" :=
  ⟨by decide,
    (authenticateJWT_spec cfgW 0 (some (generateAccessToken cfgW 0 "alice"))
      stW stW).2.2.2 (generateAccessToken cfgW 0 "alice") "alice" rfl
      (by decide)⟩

/-- C9: for an accepted (identity, secret) pair, login's response is
byte-for-byte the same whether the fire-and-forget store add succeeded or
failed — 200 with both cookies — but when the add failed the
ActiveRefreshSet is unchanged, and if the minted token was not already in
the set a subsequent refresh presenting it is rejected with the 403
TokenRevoked response. -/
theorem login_fire_and_forget (cfg : Config) (bc : String → String → Bool)
    (now : Nat) (username password : String) (st : ServerState)
    (user : UserRec)
    (hfind : findOne st.users username = some user)
    (hcmp : bc password user.password = true) :
    (login cfg bc now false username password st).1 =
      (login cfg bc now true username password st).1 ∧
    (login cfg bc now false username password st).1.status = 200 ∧
    (login cfg bc now false username password st).2 = st ∧
    (∀ rt, (login cfg bc now false username password st).1.refreshCookie =
        some rt →
      rt ∉ st.refreshTokens →
      (refreshTokenHandler cfg now true (some rt) st).1 =
        jsonResp 403 "Invalid refresh token") := by
  refine ⟨by simp [login, hfind, hcmp, generateRefreshToken],
    by simp [login, hfind, hcmp],
    by simp [login, hfind, hcmp, generateRefreshToken], ?_⟩
  intro rt hrt hmem
  simp [refreshTokenHandler, sismember, hmem]

theorem login_fire_and_forget_witness :
    (login cfgW bcW 7 false "alice" "hash" stW).1.status = 200 ∧
    (login cfgW bcW 7 false "alice" "hash" stW).2 = stW :=
  ⟨(login_fire_and_forget cfgW bcW 7 "alice" "hash" stW userW (by decide)
      (by decide)).2.1,
    (login_fire_and_forget cfgW bcW 7 "alice" "hash" stW userW (by decide)
      (by decide)).2.2.1⟩

/-- C10: refresh never consults the user collection — its response and its
effect on the ActiveRefreshSet are identical for any two states of the
`users` collection (including one where the user record was deleted) — and
on success the identity inside the freshly minted access token is taken
solely from the refresh token's own payload. -/
theorem refresh_ignores_credential_store (cfg : Config) (now : Nat)
    (storeOk : Bool) (cookie : Option Jwt) (users1 users2 : List UserRec)
    (rts : List Jwt) :
    (refreshTokenHandler cfg now storeOk cookie ⟨users1, rts⟩).1 =
      (refreshTokenHandler cfg now storeOk cookie ⟨users2, rts⟩).1 ∧
    (refreshTokenHandler cfg now storeOk cookie ⟨users1, rts⟩).2.refreshTokens =
      (refreshTokenHandler cfg now storeOk cookie ⟨users2, rts⟩).2.refreshTokens ∧
    (∀ t, cookie = some t → t ∈ rts →
      (jwtVerify t cfg.refreshSecret now).isSome = true → storeOk = true →
      (refreshTokenHandler cfg now storeOk cookie ⟨users1, rts⟩).1.accessCookie =
        some (generateAccessToken cfg now t.username)) := by
  refine ⟨?_, ?_, ?_⟩
  · cases cookie with
    | none => rfl
    | some t =>
      by_cases hm : storeOk && sismember t rts
      · cases hv : jwtVerify t cfg.refreshSecret now with
        | none => simp [refreshTokenHandler, hm, hv]
        | some u => simp [refreshTokenHandler, hm, hv]
      · simp [refreshTokenHandler, hm]
  · cases cookie with
    | none => rfl
    | some t =>
      by_cases hm : storeOk && sismember t rts
      · cases hv : jwtVerify t cfg.refreshSecret now with
        | none => simp [refreshTokenHandler, hm, hv]
        | some u => simp [refreshTokenHandler, hm, hv]
      · simp [refreshTokenHandler, hm]
  · intro t ht hmem hv hsOk
    rw [ht, hsOk]
    have hv' : jwtVerify t cfg.refreshSecret now = some t.username := by
      unfold jwtVerify at hv ⊢
      by_cases hc : t.secret = cfg.refreshSecret ∧ now < t.exp
      · simp [hc]
      · simp [hc] at hv
    simp [refreshTokenHandler, sismember, hmem, hv']

theorem refresh_ignores_credential_store_witness :
    (jwtVerify BEFW.tokW cfgW.refreshSecret 0).isSome = true ∧
    (refreshTokenHandler cfgW 0 true (some BEFW.tokW)
        ⟨[], [BEFW.tokW]⟩).1.accessCookie =
      some (generateAccessToken cfgW 0 BEFW.tokW.username) :=
  ⟨by decide,
    (refresh_ignores_credential_store cfgW 0 true (some BEFW.tokW) []
      [BEFW.userW] [BEFW.tokW]).2.2 BEFW.tokW rfl (by simp) (by decide) rfl⟩

end BEFW
